import Mathlib

/-!
Verification of the TPM TIS transport driver glue
(`drivers/char/tpm/tpm_tis.c`) against its design specification.

The file embeds the code shallowly: register-access dispatch and the
module lifecycle are translated from the C source; the common transport
routines (`tpm_tis_send`, `tpm_tis_recv`, `request_locality`,
`tpm_tis_update_timeouts`, `tpm_tis_req_canceled`, `tpm_tis_remove`) live
in `tpm_tis_common.c`, which is not part of the given sources, so those
are modelled from the specification text and marked as such.
-/

namespace TpmTis

/-! ## TIS status-register bit layout (spec section 6; `tpm.h` constants) -/

/-- `TPM_STS_VALID`: status-valid flag, bit 7. -/
def TPM_STS_VALID : Nat := 0x80

/-- `TPM_STS_COMMAND_READY`: command-ready flag, bit 6. -/
def TPM_STS_COMMAND_READY : Nat := 0x40

/-- `TPM_STS_GO`: start-execution flag, bit 5. -/
def TPM_STS_GO : Nat := 0x20

/-- `TPM_STS_DATA_AVAIL`: response-data-available flag, bit 4. -/
def TPM_STS_DATA_AVAIL : Nat := 0x10

/-- `TPM_STS_DATA_EXPECT`: more-data-expected flag, bit 3. -/
def TPM_STS_DATA_EXPECT : Nat := 0x08

/-! ## Completion test published to the generic layer

`tpm_tis.c` lines 144-145: the `tpm_class_ops` table sets
`req_complete_mask` and `req_complete_val` both to
`TPM_STS_DATA_AVAIL | TPM_STS_VALID`.  The generic layer declares a
command complete when `(status & mask) == val`. -/

/-- `.req_complete_mask` field of the `tpm_tis` class-ops table. -/
def req_complete_mask : Nat := TPM_STS_DATA_AVAIL ||| TPM_STS_VALID

/-- `.req_complete_val` field of the `tpm_tis` class-ops table. -/
def req_complete_val : Nat := TPM_STS_DATA_AVAIL ||| TPM_STS_VALID

/-- The completion test the generic TPM layer applies to a status byte
using the mask and value exported by the `tpm_tis` class-ops table. -/
def req_complete (status : Nat) : Bool :=
  (status &&& req_complete_mask) == req_complete_val

/-! ## Register Access Shim (`read_mem_bytes` / `write_mem_bytes`)

Translated from `tpm_tis.c` lines 35-50 and 52-79.  Each call is embedded
as the list of raw I/O cycles it issues, in order. -/

/-- One raw I/O cycle on the memory-mapped register window. -/
inductive MemOp : Type
  | read32 (addr : Nat)
  | read16 (addr : Nat)
  | read8 (addr : Nat)
  | write32 (addr : Nat) (v : Nat)
  | write16 (addr : Nat) (v : Nat)
  | write8 (addr : Nat) (v : Nat)
  deriving DecidableEq, Repr

/-- `read_mem_bytes(chip, addr, len, size, result)` from `tpm_tis.c:35-50`,
embedded as the sequence of I/O cycles it performs: one `ioread32` when
`size == 4`, one `ioread16` when `size == 2`, one `ioread8` when
`size == 1 && len == 1`, otherwise `len` successive `ioread8` cycles at
the same address. -/
def read_mem_bytes (addr len size : Nat) : List MemOp :=
  if size = 4 then [MemOp.read32 addr]
  else if size = 2 then [MemOp.read16 addr]
  else if size = 1 ∧ len = 1 then [MemOp.read8 addr]
  else (List.range len).map (fun _ => MemOp.read8 addr)

/-- `write_mem_bytes(chip, addr, len, size, value)` from `tpm_tis.c:52-79`,
embedded as the sequence of I/O cycles it performs: one `iowrite32` when
`size == 4`, one `iowrite16` when `size == 2`, one `iowrite8` when
`size == 1 && len == 1`, otherwise `len` successive `iowrite8` cycles of
`value[0] .. value[len-1]` at the same address. -/
def write_mem_bytes (addr len size : Nat) (value : Nat → Nat) : List MemOp :=
  if size = 4 then [MemOp.write32 addr (value 0)]
  else if size = 2 then [MemOp.write16 addr (value 0)]
  else if size = 1 ∧ len = 1 then [MemOp.write8 addr (value 0)]
  else (List.range len).map (fun i => MemOp.write8 addr (value i))

/-! ## Module-level configuration flags and probe paths

`tpm_tis.c` declares `static bool itpm` (line 133, default false),
`static bool interrupts = true` (line 152) and `static bool force`
(line 330, default false) as module globals.  The probe entry points
`tpm_tis_pnp_init` (lines 184-208) and `tpm_tis_acpi_init`
(lines 264-288) mutate those globals and then call `tpm_tis_init`,
which forwards the current global values into
`tpm_tis_init_generic(dev, chip, irq, interrupts, itpm)` (line 178). -/

/-- The module-global flag state of `tpm_tis.c`. -/
structure ModuleFlags : Type where
  interrupts : Bool
  itpm : Bool
  deriving DecidableEq, Repr

/-- Initial module state: `interrupts = true` (line 152),
`itpm = false` (line 133, zero-initialised static). -/
def initModuleFlags : ModuleFlags := { interrupts := true, itpm := false }

/-- What bus enumeration reports about one discovered device:
whether a valid IRQ line is wired (`pnp_irq_valid` / a nonzero
`tpm_info.irq` from ACPI resources) and whether the ACPI node carries
the iTPM hardware id `INTC0102` (`is_itpm`). -/
structure DevInfo : Type where
  irq_valid : Bool
  is_itpm : Bool
  deriving DecidableEq, Repr

/-- The per-device configuration handed to `tpm_tis_init_generic`
(line 178): the interrupt-enable and iTPM-quirk flags as read from the
module globals at the moment this device is initialised. -/
structure DevCtx : Type where
  interrupts : Bool
  itpm : Bool
  deriving DecidableEq, Repr

/-- `tpm_tis_pnp_init` (`tpm_tis.c:184-208`) as a transformer of the
module-global flags: when the PNP device has no valid IRQ it sets the
global `interrupts := false` (lines 193-196); when the ACPI companion
is an iTPM it sets the global `itpm := true` (lines 199-204); then
`tpm_tis_init` captures both globals into the device context
(line 178).  Returns the updated globals and the context built for this
device. -/
def tpm_tis_pnp_init (s : ModuleFlags) (d : DevInfo) : ModuleFlags × DevCtx :=
  let s1 := if d.irq_valid then s else { s with interrupts := false }
  let s2 := if d.is_itpm then { s1 with itpm := true } else s1
  (s2, { interrupts := s2.interrupts, itpm := s2.itpm })

/-- `tpm_tis_acpi_init` (`tpm_tis.c:264-288`) as a transformer of the
module-global flags: when resource walking found no IRQ
(`tpm_info.irq == 0`) it sets the global `interrupts := false`
(lines 281-282); when the ACPI device is an iTPM it sets the global
`itpm := true` (lines 284-285); then `tpm_tis_init` captures both
globals into the device context (line 178). -/
def tpm_tis_acpi_init (s : ModuleFlags) (d : DevInfo) : ModuleFlags × DevCtx :=
  let s1 := if d.irq_valid then s else { s with interrupts := false }
  let s2 := if d.is_itpm then { s1 with itpm := true } else s1
  (s2, { interrupts := s2.interrupts, itpm := s2.itpm })

/-- The two wait strategies of spec section 4.3. -/
inductive WaitStrategy : Type
  | interruptWait
  | polling
  deriving DecidableEq, Repr

/-- Modelled from the spec: `tpm_tis_init_generic` /
`wait_for_tpm_stat` in `tpm_tis_common.c` (not under the given
sources) fix the wait strategy at attach time from the
interrupt-enable flag of the device context: interrupt-backed wait
when interrupts are enabled for the context, timed polling otherwise
(spec sections 4.3 and the `interrupts` parameter of line 178). -/
def waitStrategyOf (c : DevCtx) : WaitStrategy :=
  if c.interrupts then WaitStrategy.interruptWait else WaitStrategy.polling

/-! ## Module lifecycle (`init_tis`, remove paths)

`init_tis` (`tpm_tis.c:333-374`) registers the PNP and ACPI bus drivers
in the normal mode, or a platform driver plus a platform device plus the
common initialisation in `force` mode, unwinding everything already
acquired on each error path.  The remove callbacks
`tpm_tis_pnp_remove` (lines 224-230) and `tpm_tis_acpi_remove`
(lines 290-298) unregister the chip and run `tpm_tis_remove`. -/

/-- A resource-management action performed by the lifecycle code. -/
inductive LifeAct : Type
  | regPnpDriver
  | unregPnpDriver
  | regAcpiDriver
  | unregAcpiDriver
  | regPlatDriver
  | unregPlatDriver
  | regPlatDevice
  | unregPlatDevice
  | commonInit
  | chipUnregister
  | tisRemove
  deriving DecidableEq, Repr

/-- Outcomes of the fallible calls `init_tis` makes, in the order it can
make them: `pnp_register_driver`, `acpi_bus_register_driver`,
`platform_driver_register`, `platform_device_register_simple`,
`tpm_tis_init`. -/
structure InitOutcomes : Type where
  pnpRegOk : Bool
  acpiRegOk : Bool
  platRegOk : Bool
  platDevOk : Bool
  commonInitOk : Bool
  deriving DecidableEq, Repr

/-- `init_tis` (`tpm_tis.c:333-374`) with both `CONFIG_PNP` and
`CONFIG_ACPI` enabled, embedded as the ordered list of
resource-management actions it performs plus whether it returns an
error.  A fallible call that fails acquires nothing, so only successful
registrations appear as acquisitions.  In normal mode it registers the
PNP driver, then the ACPI driver (unregistering the PNP driver on
failure, lines 346-351), then returns.  In `force` mode it registers
the platform driver, the platform device (jumping to `err_dev` on
failure, which unregisters the driver), and runs the common init
(jumping to `err_init` on failure, which unregisters the device then
the driver, lines 369-373). -/
def init_tis (force : Bool) (oc : InitOutcomes) : List LifeAct × Bool :=
  if force then
    if !oc.platRegOk then ([], true)
    else if !oc.platDevOk then
      ([LifeAct.regPlatDriver, LifeAct.unregPlatDriver], true)
    else if !oc.commonInitOk then
      ([LifeAct.regPlatDriver, LifeAct.regPlatDevice,
        LifeAct.unregPlatDevice, LifeAct.unregPlatDriver], true)
    else
      ([LifeAct.regPlatDriver, LifeAct.regPlatDevice, LifeAct.commonInit], false)
  else
    if !oc.pnpRegOk then ([], true)
    else if !oc.acpiRegOk then
      ([LifeAct.regPnpDriver, LifeAct.unregPnpDriver], true)
    else ([LifeAct.regPnpDriver, LifeAct.regAcpiDriver], false)

/-- The release action undoing an acquisition action. -/
def releaseFor : LifeAct → LifeAct
  | LifeAct.regPnpDriver => LifeAct.unregPnpDriver
  | LifeAct.regAcpiDriver => LifeAct.unregAcpiDriver
  | LifeAct.regPlatDriver => LifeAct.unregPlatDriver
  | LifeAct.regPlatDevice => LifeAct.unregPlatDevice
  | a => a

/-- Whether an action acquires a resource. -/
def isAcquire : LifeAct → Bool
  | LifeAct.regPnpDriver => true
  | LifeAct.regAcpiDriver => true
  | LifeAct.regPlatDriver => true
  | LifeAct.regPlatDevice => true
  | _ => false

/-- The resources still held at the end of a lifecycle trace: every
acquisition with no matching release later in the trace. -/
def heldAfter (tr : List LifeAct) : List LifeAct :=
  (tr.filter isAcquire).filter (fun a => !(tr.contains (releaseFor a)))

/-- `tpm_tis_pnp_remove` (`tpm_tis.c:224-230`): unregisters the chip and
runs the transport teardown, in that order. -/
def tpm_tis_pnp_remove : List LifeAct :=
  [LifeAct.chipUnregister, LifeAct.tisRemove]

/-- `tpm_tis_acpi_remove` (`tpm_tis.c:290-298`): unregisters the chip
and runs the transport teardown, in that order. -/
def tpm_tis_acpi_remove : List LifeAct :=
  [LifeAct.chipUnregister, LifeAct.tisRemove]

/-- `cleanup_tis` (`tpm_tis.c:376-395`) in `force` mode: unregisters the
chip, runs the transport teardown, then unregisters the platform device
and driver. -/
def cleanup_tis_force : List LifeAct :=
  [LifeAct.chipUnregister, LifeAct.tisRemove,
   LifeAct.unregPlatDevice, LifeAct.unregPlatDriver]

/-- A register write to the per-locality access register. -/
inductive AccessWrite : Type
  | requestUse (locality : Nat)
  | activeLocality (locality : Nat)
  deriving DecidableEq, Repr

/-- Modelled from the spec: `tpm_tis_remove` in `tpm_tis_common.c` (not
under the given sources) is the transport teardown that "releases
locality and detaches" (spec section 6), via the best-effort
`release_locality` write of the locality-relinquish bit
(spec section 4.1). -/
def tpm_tis_remove (activeLoc : Nat) : List AccessWrite :=
  [AccessWrite.activeLocality activeLoc]

/-! ## Transfer Engine (modelled from the spec)

`tpm_tis_send` / `tpm_tis_recv` live in `tpm_tis_common.c`, which is not
among the given sources (only the class-ops table at `tpm_tis.c:138-149`
references them), so the burst-count-limited FIFO pump is modelled from
spec sections 4.4 and 8. -/

/-- Modelled from the spec: `get_burstcount` in `tpm_tis_common.c` (not
under the given sources).  `burst k` is the 24-bit burst-count field
observed at the k-th status-register read; the routine re-reads with a
short delay while the field is 0, bounded by a poll budget, and returns
the first nonzero burst value together with the index of the next
status read, or `none` on timeout. -/
def get_burstcount (burst : Nat → Nat) : Nat → Nat → Option (Nat × Nat)
  | 0, _ => none
  | fuel + 1, k =>
    if burst k ≠ 0 then some (burst k, k + 1)
    else get_burstcount burst fuel (k + 1)

/-- Modelled from the spec: the chunked FIFO pump shared by the send and
receive paths of `tpm_tis_common.c` (not under the given sources):
"chunks no larger than the current burst count (re-read burst count
after each chunk)" (spec section 4.4).  `remaining` counts the bytes
still to move; each iteration waits for a nonzero burst count `b` and
moves `min b remaining` bytes in one FIFO access.  Returns the ordered
list of `(bytes moved, burst advertised at that access)` pairs plus a
success flag (`false` when the burst-count wait timed out); the fuel is
structural and set to `remaining` by callers, sufficient because every
chunk moves at least one byte. -/
def fifo_chunks (burst : Nat → Nat) (timeout : Nat) :
    Nat → Nat → Nat → List (Nat × Nat) × Bool
  | 0, _, remaining => ([], remaining == 0)
  | fuel + 1, k, remaining =>
    if remaining = 0 then ([], true)
    else
      match get_burstcount burst timeout k with
      | none => ([], false)
      | some (b, k2) =>
        let c := min b remaining
        let rest := fifo_chunks burst timeout fuel k2 (remaining - c)
        ((c, b) :: rest.1, rest.2)

/-- Modelled from the spec: the FIFO-write phase of `tpm_tis_send` in
`tpm_tis_common.c` (not under the given sources): writes all `n` bytes
of the command buffer through the burst-limited pump (spec section 4.4,
step 3). -/
def tpm_tis_send (burst : Nat → Nat) (timeout n : Nat) :
    List (Nat × Nat) × Bool :=
  fifo_chunks burst timeout n 0 n

/-- Failure kinds of the receive path (spec section 7). -/
inductive TpmErr : Type
  | MalformedResponse
  | Timeout
  deriving DecidableEq, Repr

/-- The TPM response header length declared by the device: big-endian
32-bit field at bytes 2..5 of the 6-byte header, where `bytes k` is the
k-th byte the device delivers. -/
def declaredLen (bytes : Nat → Nat) : Nat :=
  bytes 2 * 2 ^ 24 + bytes 3 * 2 ^ 16 + bytes 4 * 2 ^ 8 + bytes 5

/-- Result of a receive: the error (if any), the declared response
length, the body chunks as `(bytes read, advertised burst)` pairs, and
the sizes of all FIFO read calls performed, in order. -/
structure RecvOut : Type where
  err : Option TpmErr
  len : Nat
  body : List (Nat × Nat)
  reads : List Nat

/-- Modelled from the spec: `tpm_tis_recv` in `tpm_tis_common.c` (not
under the given sources): reads exactly the 6 header bytes first,
validates that the declared length lies within `[6, capacity]`, failing
`MalformedResponse` with no further FIFO reads otherwise, then reads
the remaining `declared - 6` bytes through the burst-limited pump
(spec section 4.4, recv steps 2-3). -/
def tpm_tis_recv (capacity : Nat) (bytes burst : Nat → Nat)
    (timeout : Nat) : RecvOut :=
  let expected := declaredLen bytes
  if expected < 6 ∨ capacity < expected then
    { err := some TpmErr.MalformedResponse, len := expected,
      body := [], reads := [6] }
  else
    let out := fifo_chunks burst timeout (expected - 6) 0 (expected - 6)
    { err := if out.2 then none else some TpmErr.Timeout,
      len := expected, body := out.1,
      reads := 6 :: out.1.map Prod.fst }

/-! ## Locality Manager (modelled from the spec) -/

/-- Locality state of one device context: which locality is active, if
any (spec section 3). -/
structure LocState : Type where
  active : Option Nat
  deriving DecidableEq, Repr

/-- Result of a locality request. -/
inductive LocResult : Type
  | ok
  | localityTimeout
  deriving DecidableEq, Repr

/-- Modelled from the spec: `request_locality(ctx, n)` in
`tpm_tis_common.c` (not under the given sources): if locality `n` is
already active the call is a no-op and succeeds (spec section 4.1,
"Idempotent if locality n already active"); otherwise it writes the
locality-request bit and waits, bounded by the class-A timeout, for the
active bit — `grant` abstracts whether the hardware asserts it in
time.  Returns the result, the access-register writes performed, and
the new locality state. -/
def request_locality (st : LocState) (n : Nat) (grant : Bool) :
    LocResult × List AccessWrite × LocState :=
  if st.active = some n then (LocResult.ok, [], st)
  else if grant then
    (LocResult.ok, [AccessWrite.requestUse n], { active := some n })
  else
    (LocResult.localityTimeout, [AccessWrite.requestUse n], st)

/-! ## Status & Timeout Engine (modelled from the spec) -/

/-- `TIS_SHORT_TIMEOUT` (milliseconds): the TIS-specified default for
the short timeout classes, among them class A. -/
def TIS_SHORT_TIMEOUT_MS : Nat := 750

/-- `TIS_LONG_TIMEOUT` (milliseconds): the TIS-specified default for
the long timeout class B. -/
def TIS_LONG_TIMEOUT_MS : Nat := 2000

/-- The four command-class timeout durations (spec section 3). -/
structure TimeoutSet : Type where
  a : Nat
  b : Nat
  c : Nat
  d : Nat
  deriving DecidableEq, Repr

/-- A reported class-A timeout is implausibly small when it falls below
the TIS-specified default for the short classes (for example 0 ms). -/
def implausiblyLowA (v : Nat) : Bool := v < TIS_SHORT_TIMEOUT_MS

/-- Modelled from the spec: `tpm_tis_update_timeouts` in
`tpm_tis_common.c` (not under the given sources): takes the four
timeout values parsed from the capability response and special-cases
known-bad values — a TPM reporting an implausibly small class-A
timeout is clamped to the TIS-specified default (spec sections 4.2
and 8). -/
def tpm_tis_update_timeouts (reported : TimeoutSet) : TimeoutSet :=
  { reported with
    a := if implausiblyLowA reported.a then TIS_SHORT_TIMEOUT_MS
         else reported.a }

/-- Modelled from the spec: the status bit `tpm_tis_req_canceled` tests
under the iTPM quirk (`tpm_tis_common.c`, not under the given sources):
an alternate bit, because the standard bit is unreliable on that
hardware; the spec leaves the exact alternate bit hardware-specific
(section 9), fixed here as the status-valid bit, distinct from the
standard bit. -/
def CANCEL_BIT_ITPM : Nat := TPM_STS_VALID

/-- The standard cancellation bit: a cancelled command returns the
device to the command-ready state. -/
def CANCEL_BIT_STANDARD : Nat := TPM_STS_COMMAND_READY

/-- Modelled from the spec: `tpm_tis_req_canceled` in
`tpm_tis_common.c` (not under the given sources): reports whether an
in-flight command was cancelled by testing a status bit chosen by the
iTPM quirk flag of the device context (spec section 4.2). -/
def tpm_tis_req_canceled (c : DevCtx) (status : Nat) : Bool :=
  if c.itpm then (status &&& CANCEL_BIT_ITPM) != 0
  else (status &&& CANCEL_BIT_STANDARD) != 0

/-! ## Helper lemmas on the burst-count pump -/

/-- A burst value returned by `get_burstcount` is nonzero. -/
theorem get_burstcount_nonzero (burst : Nat → Nat) :
    ∀ (fuel k b k2 : Nat),
      get_burstcount burst fuel k = some (b, k2) → b ≠ 0 := by
  intro fuel
  induction fuel with
  | zero => intro k b k2 h; simp [get_burstcount] at h
  | succ fuel ih =>
    intro k b k2 h
    by_cases hk : burst k ≠ 0
    · simp [get_burstcount, hk] at h
      rcases h with ⟨hb, _⟩
      exact hb ▸ hk
    · simp [get_burstcount, hk] at h
      exact ih (k + 1) b k2 h

/-- `get_burstcount` succeeds whenever some status read within the poll
budget reports a nonzero burst count. -/
theorem get_burstcount_isSome (burst : Nat → Nat) :
    ∀ (fuel k : Nat), (∃ i, i < fuel ∧ burst (k + i) ≠ 0) →
      (get_burstcount burst fuel k).isSome := by
  intro fuel
  induction fuel with
  | zero => intro k ⟨i, hi, _⟩; omega
  | succ fuel ih =>
    intro k ⟨i, hi, hnz⟩
    by_cases hk : burst k ≠ 0
    · simp [get_burstcount, hk]
    · have hk0 : burst k = 0 := by
        by_contra hc; exact hk hc
      have hi0 : i ≠ 0 := by
        intro h0; rw [h0, Nat.add_zero] at hnz; exact hnz hk0
      simp only [get_burstcount, hk, if_false]
      exact ih (k + 1) ⟨i - 1, by omega, by
        have : k + 1 + (i - 1) = k + i := by omega
        rw [this]; exact hnz⟩

/-- Every chunk the pump moves is no larger than the burst count
advertised at the time of that FIFO access. -/
theorem fifo_chunks_le (burst : Nat → Nat) (timeout : Nat) :
    ∀ (fuel k remaining : Nat) (p : Nat × Nat),
      p ∈ (fifo_chunks burst timeout fuel k remaining).1 → p.1 ≤ p.2 := by
  intro fuel
  induction fuel with
  | zero => intro k remaining p hp; simp [fifo_chunks] at hp
  | succ fuel ih =>
    intro k remaining p hp
    by_cases hr : remaining = 0
    · simp [fifo_chunks, hr] at hp
    · simp only [fifo_chunks, if_neg hr] at hp
      cases hgb : get_burstcount burst timeout k with
      | none => rw [hgb] at hp; simp at hp
      | some v =>
        rw [hgb] at hp
        simp only [List.mem_cons] at hp
        rcases hp with hp | hp
        · rw [hp]; exact Nat.min_le_left v.1 remaining
        · exact ih v.2 (remaining - min v.1 remaining) p hp

/-- When every window of `timeout` consecutive status reads contains a
nonzero burst count, the pump succeeds and moves exactly the requested
number of bytes. -/
theorem fifo_chunks_total (burst : Nat → Nat) (timeout : Nat)
    (H : ∀ j, ∃ i, i < timeout ∧ burst (j + i) ≠ 0) :
    ∀ (fuel k remaining : Nat), remaining ≤ fuel →
      (fifo_chunks burst timeout fuel k remaining).2 = true ∧
      ((fifo_chunks burst timeout fuel k remaining).1.map Prod.fst).sum
        = remaining := by
  intro fuel
  induction fuel with
  | zero =>
    intro k remaining hle
    have h0 : remaining = 0 := Nat.le_zero.mp hle
    simp [fifo_chunks, h0]
  | succ fuel ih =>
    intro k remaining hle
    by_cases hr : remaining = 0
    · simp [fifo_chunks, hr]
    · have hsome : (get_burstcount burst timeout k).isSome :=
        get_burstcount_isSome burst timeout k (H k)
      cases hgb : get_burstcount burst timeout k with
      | none => rw [hgb] at hsome; simp at hsome
      | some v =>
        have hb : v.1 ≠ 0 := get_burstcount_nonzero burst timeout k v.1 v.2
          (by rw [hgb])
        have hc1 : 1 ≤ min v.1 remaining := by
          have : 1 ≤ v.1 := Nat.one_le_iff_ne_zero.mpr hb
          have : 1 ≤ remaining := Nat.one_le_iff_ne_zero.mpr hr
          omega
        have hrest := ih v.2 (remaining - min v.1 remaining) (by omega)
        simp only [fifo_chunks, if_neg hr, hgb]
        constructor
        · exact hrest.1
        · simp only [List.map_cons, List.sum_cons, hrest.2]
          have : min v.1 remaining ≤ remaining := Nat.min_le_right v.1 remaining
          omega

/-! ## Claim theorems -/

/-- C1: for every buffer and every burst-count sequence in which a
nonzero value appears within the poll budget of each re-read (zeros
force a wait/retry), `tpm_tis_send` delivers all `n` command bytes and
`tpm_tis_recv` delivers all declared response bytes, and no single FIFO
write or read moves more bytes than the burst count advertised at the
time of that access, the burst count being re-read after each chunk. -/
theorem send_recv_deliver_all_within_burst
    (burst bytes : Nat → Nat) (timeout n cap : Nat)
    (H : ∀ j, ∃ i, i < timeout ∧ burst (j + i) ≠ 0)
    (hlo : 6 ≤ declaredLen bytes) (hhi : declaredLen bytes ≤ cap) :
    ((tpm_tis_send burst timeout n).2 = true ∧
     ((tpm_tis_send burst timeout n).1.map Prod.fst).sum = n ∧
     (∀ p ∈ (tpm_tis_send burst timeout n).1, p.1 ≤ p.2)) ∧
    ((tpm_tis_recv cap bytes burst timeout).err = none ∧
     (tpm_tis_recv cap bytes burst timeout).reads.sum = declaredLen bytes ∧
     (∀ p ∈ (tpm_tis_recv cap bytes burst timeout).body, p.1 ≤ p.2)) := by
  have hsend := fifo_chunks_total burst timeout H n 0 n (Nat.le_refl n)
  have hbody := fifo_chunks_total burst timeout H (declaredLen bytes - 6) 0
    (declaredLen bytes - 6) (Nat.le_refl _)
  have hnotmal : ¬(declaredLen bytes < 6 ∨ cap < declaredLen bytes) := by
    omega
  refine ⟨⟨hsend.1, hsend.2, ?_⟩, ?_⟩
  · intro p hp
    exact fifo_chunks_le burst timeout n 0 n p hp
  · simp only [tpm_tis_recv, if_neg hnotmal]
    refine ⟨by simp [hbody.1], ?_, ?_⟩
    · simp only [List.sum_cons]
      rw [hbody.2]
      omega
    · intro p hp
      exact fifo_chunks_le burst timeout (declaredLen bytes - 6) 0
        (declaredLen bytes - 6) p hp

/-- Witness for C1 at a concrete burst sequence alternating 0 and 3
(poll budget 2), a 20-byte command and a response declaring 10 bytes. -/
theorem send_recv_deliver_all_within_burst_witness :
    ((tpm_tis_send (fun k => if k % 2 = 0 then 0 else 3) 2 20).2 = true ∧
     ((tpm_tis_send (fun k => if k % 2 = 0 then 0 else 3) 2 20).1.map
        Prod.fst).sum = 20 ∧
     (∀ p ∈ (tpm_tis_send (fun k => if k % 2 = 0 then 0 else 3) 2 20).1,
        p.1 ≤ p.2)) ∧
    ((tpm_tis_recv 64 (fun k => if k = 5 then 10 else 0)
        (fun k => if k % 2 = 0 then 0 else 3) 2).err = none ∧
     (tpm_tis_recv 64 (fun k => if k = 5 then 10 else 0)
        (fun k => if k % 2 = 0 then 0 else 3) 2).reads.sum
       = declaredLen (fun k => if k = 5 then 10 else 0) ∧
     (∀ p ∈ (tpm_tis_recv 64 (fun k => if k = 5 then 10 else 0)
        (fun k => if k % 2 = 0 then 0 else 3) 2).body, p.1 ≤ p.2)) :=
  send_recv_deliver_all_within_burst
    (fun k => if k % 2 = 0 then 0 else 3) (fun k => if k = 5 then 10 else 0)
    2 20 64
    (by
      intro j
      by_cases hj : j % 2 = 0
      · exact ⟨1, by omega, by simp; omega⟩
      · exact ⟨0, by omega, by simp; omega⟩)
    (by decide) (by decide)

/-- C2: every `tpm_tis_recv` reads exactly the 6 header bytes first,
and when the declared length is outside `[6, capacity]` it fails with
`MalformedResponse` having performed no FIFO reads beyond those 6
header bytes. -/
theorem recv_header_validated
    (cap timeout : Nat) (bytes burst : Nat → Nat) :
    (tpm_tis_recv cap bytes burst timeout).reads.head? = some 6 ∧
    (declaredLen bytes < 6 ∨ cap < declaredLen bytes →
      (tpm_tis_recv cap bytes burst timeout).err
          = some TpmErr.MalformedResponse ∧
      (tpm_tis_recv cap bytes burst timeout).reads = [6]) := by
  constructor
  · by_cases h : declaredLen bytes < 6 ∨ cap < declaredLen bytes
    · simp [tpm_tis_recv, h]
    · simp [tpm_tis_recv, h]
  · intro h
    simp [tpm_tis_recv, h]

/-- Witness for C2 at a device declaring a response length of 3. -/
theorem recv_header_validated_witness :
    (tpm_tis_recv 64 (fun k => if k = 5 then 3 else 0) (fun _ => 8)
        2).err = some TpmErr.MalformedResponse ∧
    (tpm_tis_recv 64 (fun k => if k = 5 then 3 else 0) (fun _ => 8)
        2).reads = [6] :=
  (recv_header_validated 64 2 (fun k => if k = 5 then 3 else 0)
    (fun _ => 8)).2 (Or.inl (by decide))

/-- C3 counterexample: probing an iTPM device changes the quirk setting
observed by a different device probed afterwards.  Starting from the
initial module state, probing a plain (non-iTPM) device alone yields a
context with `itpm = false`, but probing it after an iTPM device yields
`itpm = true`: the flags are process-wide mutable state, refuting the
claim at this concrete two-device input. -/
theorem itpm_flag_is_global_counterexample :
    (tpm_tis_pnp_init initModuleFlags
        { irq_valid := true, is_itpm := false }).2.itpm = false ∧
    (tpm_tis_pnp_init
        (tpm_tis_pnp_init initModuleFlags
          { irq_valid := true, is_itpm := true }).1
        { irq_valid := true, is_itpm := false }).2.itpm = true := by
  constructor
  · rfl
  · rfl

/-- C3 amended: the force/interrupts/itpm flags are process-wide
mutable module globals, not per-context construction parameters. Each
probe first updates the globals (clearing `interrupts` when the device
has no valid IRQ, setting `itpm` for an iTPM device — both updates
sticky) and then captures the current global values into the device
context, so a probe can change the settings observed by every device
probed after it. -/
theorem module_flags_are_global_and_sticky
    (s : ModuleFlags) (d : DevInfo) :
    (tpm_tis_pnp_init s d).1.itpm = (s.itpm || d.is_itpm) ∧
    (tpm_tis_pnp_init s d).1.interrupts = (s.interrupts && d.irq_valid) ∧
    (tpm_tis_pnp_init s d).2.itpm = (s.itpm || d.is_itpm) ∧
    (tpm_tis_pnp_init s d).2.interrupts = (s.interrupts && d.irq_valid) ∧
    (tpm_tis_acpi_init s d).1.itpm = (s.itpm || d.is_itpm) ∧
    (tpm_tis_acpi_init s d).1.interrupts = (s.interrupts && d.irq_valid) ∧
    (tpm_tis_acpi_init s d).2.itpm = (s.itpm || d.is_itpm) ∧
    (tpm_tis_acpi_init s d).2.interrupts = (s.interrupts && d.irq_valid) := by
  rcases d with ⟨iv, it⟩
  cases iv <;> cases it <;>
    simp [tpm_tis_pnp_init, tpm_tis_acpi_init]

/-- C4: `read_mem_bytes` / `write_mem_bytes` issue exactly one 32-bit
I/O cycle for width 4, one 16-bit cycle for width 2, one 8-bit cycle
for width 1 with length 1, and for every other (size, len) combination
exactly `len` successive single-byte cycles at the same register
address in index order. -/
theorem mem_bytes_access_shape (addr len size : Nat) (value : Nat → Nat) :
    (size = 4 →
      read_mem_bytes addr len size = [MemOp.read32 addr] ∧
      write_mem_bytes addr len size value = [MemOp.write32 addr (value 0)]) ∧
    (size = 2 →
      read_mem_bytes addr len size = [MemOp.read16 addr] ∧
      write_mem_bytes addr len size value = [MemOp.write16 addr (value 0)]) ∧
    (size = 1 → len = 1 →
      read_mem_bytes addr len size = [MemOp.read8 addr] ∧
      write_mem_bytes addr len size value = [MemOp.write8 addr (value 0)]) ∧
    (size ≠ 4 → size ≠ 2 → ¬(size = 1 ∧ len = 1) →
      read_mem_bytes addr len size
          = (List.range len).map (fun _ => MemOp.read8 addr) ∧
      write_mem_bytes addr len size value
          = (List.range len).map (fun i => MemOp.write8 addr (value i))) := by
  refine ⟨?_, ?_, ?_, ?_⟩
  · intro h4
    simp [read_mem_bytes, write_mem_bytes, h4]
  · intro h2
    subst h2
    simp [read_mem_bytes, write_mem_bytes]
  · intro h1 hl
    subst h1; subst hl
    simp [read_mem_bytes, write_mem_bytes]
  · intro h4 h2 h11
    simp [read_mem_bytes, write_mem_bytes, h4, h2, h11]

/-- Witness for C4 at size 1 with len 3: three single-byte cycles. -/
theorem mem_bytes_access_shape_witness :
    read_mem_bytes 0x24 3 1
        = [MemOp.read8 0x24, MemOp.read8 0x24, MemOp.read8 0x24] ∧
    write_mem_bytes 0x24 3 1 (fun i => i + 10)
        = [MemOp.write8 0x24 10, MemOp.write8 0x24 11,
           MemOp.write8 0x24 12] := by
  have h := (mem_bytes_access_shape 0x24 3 1 (fun i => i + 10)).2.2.2
    (by decide) (by decide) (by decide)
  refine ⟨?_, ?_⟩
  · rw [h.1]; rfl
  · rw [h.2]; rfl

/-- C5: when the enumerated device supplies no valid IRQ line, both
probe paths disable interrupt mode in the configuration captured by the
device context before initialisation, so every subsequent wait on that
context uses the polling strategy. -/
theorem no_irq_means_polling (s : ModuleFlags) (d : DevInfo)
    (h : d.irq_valid = false) :
    (tpm_tis_pnp_init s d).2.interrupts = false ∧
    waitStrategyOf (tpm_tis_pnp_init s d).2 = WaitStrategy.polling ∧
    (tpm_tis_acpi_init s d).2.interrupts = false ∧
    waitStrategyOf (tpm_tis_acpi_init s d).2 = WaitStrategy.polling := by
  rcases d with ⟨iv, it⟩
  cases it <;>
    simp_all [tpm_tis_pnp_init, tpm_tis_acpi_init, waitStrategyOf]

/-- Witness for C5 at a concrete IRQ-less device. -/
theorem no_irq_means_polling_witness :
    (tpm_tis_pnp_init initModuleFlags
        { irq_valid := false, is_itpm := false }).2.interrupts = false ∧
    waitStrategyOf (tpm_tis_pnp_init initModuleFlags
        { irq_valid := false, is_itpm := false }).2
      = WaitStrategy.polling ∧
    (tpm_tis_acpi_init initModuleFlags
        { irq_valid := false, is_itpm := false }).2.interrupts = false ∧
    waitStrategyOf (tpm_tis_acpi_init initModuleFlags
        { irq_valid := false, is_itpm := false }).2
      = WaitStrategy.polling :=
  no_irq_means_polling initModuleFlags
    { irq_valid := false, is_itpm := false } rfl

/-- C6: for every capability response reporting an implausibly small
class-A timeout, `tpm_tis_update_timeouts` stores the TIS-specified
default for class A rather than the reported value. -/
theorem update_timeouts_clamps_low_class_a (reported : TimeoutSet)
    (h : implausiblyLowA reported.a = true) :
    (tpm_tis_update_timeouts reported).a = TIS_SHORT_TIMEOUT_MS ∧
    (tpm_tis_update_timeouts reported).a ≠ reported.a := by
  have hlt : reported.a < TIS_SHORT_TIMEOUT_MS := by
    simpa [implausiblyLowA] using h
  constructor
  · simp [tpm_tis_update_timeouts, h]
  · simp [tpm_tis_update_timeouts, h]
    omega

/-- Witness for C6 at a TPM reporting a 0 ms class-A timeout. -/
theorem update_timeouts_clamps_low_class_a_witness :
    (tpm_tis_update_timeouts
        { a := 0, b := 2000, c := 750, d := 750 }).a
      = TIS_SHORT_TIMEOUT_MS ∧
    (tpm_tis_update_timeouts
        { a := 0, b := 2000, c := 750, d := 750 }).a ≠ 0 := by
  have h := update_timeouts_clamps_low_class_a
    { a := 0, b := 2000, c := 750, d := 750 } (by decide)
  exact h

/-- C7: `tpm_tis_req_canceled` decides cancellation by testing a status
bit selected by the iTPM quirk flag of the device context: the
alternate bit when the flag is set, the standard cancellation bit when
it is clear; the two bits are distinct. -/
theorem req_canceled_bit_depends_on_itpm :
    (∀ (c : DevCtx) (s : Nat), c.itpm = true →
      tpm_tis_req_canceled c s = ((s &&& CANCEL_BIT_ITPM) != 0)) ∧
    (∀ (c : DevCtx) (s : Nat), c.itpm = false →
      tpm_tis_req_canceled c s = ((s &&& CANCEL_BIT_STANDARD) != 0)) ∧
    CANCEL_BIT_ITPM ≠ CANCEL_BIT_STANDARD := by
  refine ⟨?_, ?_, by decide⟩
  · intro c s h
    simp [tpm_tis_req_canceled, h]
  · intro c s h
    simp [tpm_tis_req_canceled, h]

/-- Witness for C7: under the quirk a status byte with only the
standard bit set is not taken as cancelled, while without the quirk it
is. -/
theorem req_canceled_bit_depends_on_itpm_witness :
    tpm_tis_req_canceled { interrupts := true, itpm := true }
        TPM_STS_COMMAND_READY
      = ((TPM_STS_COMMAND_READY &&& CANCEL_BIT_ITPM) != 0) ∧
    tpm_tis_req_canceled { interrupts := true, itpm := false }
        TPM_STS_COMMAND_READY
      = ((TPM_STS_COMMAND_READY &&& CANCEL_BIT_STANDARD) != 0) :=
  ⟨req_canceled_bit_depends_on_itpm.1
      { interrupts := true, itpm := true } TPM_STS_COMMAND_READY rfl,
   req_canceled_bit_depends_on_itpm.2.1
      { interrupts := true, itpm := false } TPM_STS_COMMAND_READY rfl⟩

/-- C8: `request_locality` is idempotent: if locality `n` is already
active on the context, the call performs no register writes, reports
success and leaves the state unchanged — hence a second call after any
call that left `n` active is a write-free success as well. -/
theorem request_locality_idempotent (st : LocState) (n : Nat)
    (g g2 : Bool) (h : st.active = some n) :
    request_locality st n g = (LocResult.ok, [], st) ∧
    (request_locality (request_locality st n g).2.2 n g2).1
        = LocResult.ok ∧
    (request_locality (request_locality st n g).2.2 n g2).2.1 = [] := by
  have h1 : request_locality st n g = (LocResult.ok, [], st) := by
    simp [request_locality, h]
  refine ⟨h1, ?_, ?_⟩
  · rw [h1]; simp [request_locality, h]
  · rw [h1]; simp [request_locality, h]

/-- Witness for C8 at locality 0 already active. -/
theorem request_locality_idempotent_witness :
    request_locality { active := some 0 } 0 true
        = (LocResult.ok, [], { active := some 0 }) ∧
    (request_locality
        (request_locality { active := some 0 } 0 true).2.2 0 false).1
      = LocResult.ok ∧
    (request_locality
        (request_locality { active := some 0 } 0 true).2.2 0 false).2.1
      = [] :=
  request_locality_idempotent { active := some 0 } 0 true false rfl

/-- C9: every exit path of attach and teardown releases what it
acquired: any error return of `init_tis` leaves no resource held; in
force mode a common-initialisation failure unregisters the platform
device and then the platform driver before returning the error; both
remove paths unregister the chip and run the transport teardown, which
issues the locality-relinquish write. -/
theorem lifecycle_releases_on_every_exit :
    (∀ (force p a pl pd ci : Bool),
      (init_tis force (InitOutcomes.mk p a pl pd ci)).2 = true →
      heldAfter (init_tis force (InitOutcomes.mk p a pl pd ci)).1 = []) ∧
    (∀ (p a : Bool),
      init_tis true (InitOutcomes.mk p a true true false)
        = ([LifeAct.regPlatDriver, LifeAct.regPlatDevice,
            LifeAct.unregPlatDevice, LifeAct.unregPlatDriver], true)) ∧
    tpm_tis_pnp_remove = [LifeAct.chipUnregister, LifeAct.tisRemove] ∧
    tpm_tis_acpi_remove = [LifeAct.chipUnregister, LifeAct.tisRemove] ∧
    (∀ l : Nat, AccessWrite.activeLocality l ∈ tpm_tis_remove l) := by
  refine ⟨by decide, by decide, rfl, rfl, ?_⟩
  intro l
  simp [tpm_tis_remove]

/-- Witness for C9: the force-mode attach whose common initialisation
fails ends with nothing held. -/
theorem lifecycle_releases_on_every_exit_witness :
    heldAfter (init_tis true
        (InitOutcomes.mk true true true true false)).1 = [] :=
  lifecycle_releases_on_every_exit.1 true true true true true false
    (by decide)

/-- C10: the completion test published through the class-ops table
reports a status byte complete iff both `TPM_STS_DATA_AVAIL` and
`TPM_STS_VALID` are set; `DATA_AVAIL` without `VALID` is never
completion. -/
theorem req_complete_needs_data_avail_and_valid :
    (∀ s : Nat, req_complete s = true ↔
      s &&& (TPM_STS_DATA_AVAIL ||| TPM_STS_VALID)
        = (TPM_STS_DATA_AVAIL ||| TPM_STS_VALID)) ∧
    (∀ s : Nat, s &&& TPM_STS_VALID = 0 → req_complete s = false) := by
  constructor
  · intro s
    simp [req_complete, req_complete_mask, req_complete_val]
  · intro s hs
    by_contra hc
    rw [Bool.not_eq_false] at hc
    have h90 : s &&& (TPM_STS_DATA_AVAIL ||| TPM_STS_VALID)
        = TPM_STS_DATA_AVAIL ||| TPM_STS_VALID := by
      simpa [req_complete, req_complete_mask, req_complete_val] using hc
    have ha : (TPM_STS_DATA_AVAIL ||| TPM_STS_VALID) &&& TPM_STS_VALID
        = TPM_STS_VALID := by decide
    have h80 : s &&& TPM_STS_VALID = TPM_STS_VALID := by
      calc s &&& TPM_STS_VALID
          = s &&& ((TPM_STS_DATA_AVAIL ||| TPM_STS_VALID)
              &&& TPM_STS_VALID) := by rw [ha]
        _ = (s &&& (TPM_STS_DATA_AVAIL ||| TPM_STS_VALID))
              &&& TPM_STS_VALID := by rw [Nat.and_assoc]
        _ = (TPM_STS_DATA_AVAIL ||| TPM_STS_VALID) &&& TPM_STS_VALID := by
              rw [h90]
        _ = TPM_STS_VALID := ha
    rw [hs] at h80
    exact absurd h80 (by decide)

/-- Witness for C10: `DATA_AVAIL` alone (0x10) is not completion. -/
theorem req_complete_needs_data_avail_and_valid_witness :
    req_complete TPM_STS_DATA_AVAIL = false :=
  req_complete_needs_data_avail_and_valid.2 TPM_STS_DATA_AVAIL (by decide)

end TpmTis
